import Mathlib

/-!
# Shallow embedding of the blogpost scraping scripts

Definitions below model the three Python scripts of the repository:

* `src/bs4-demo/main.py` — "bs4 script": a static paginated scrape of
  books.toscrape.com over pages 1..50 with `requests.get` and BeautifulSoup,
  appending rows to `output.csv` and writing the header when `f.tell() == 0`.
* `src/selenium-demo/main.py` — "quotes script": an interactive scrape of
  quotes.toscrape.com over 3 pages inside `try/except Exception/finally`,
  clicking the pager "next" link after scraping each page and calling
  `driver.quit()` in the `finally` block.
* `src/selenium-demo/bluesky.py` — "bluesky script": a single-page scrape of
  bsky.app inside `try/finally`, with per-post `try/except` fallbacks to the
  string "Unknown" for the name and time sub-selectors.

HTML documents are abstracted to the data the selectors can resolve on them
(`Book`, `QuoteElem`, `PostElem`, with `Option` for lookups that can fail);
the file system is a list of written rows (the scripts delete any prior
output file and then only ever open in append mode); the selenium scripts
are given an event-trace semantics so that row writes, pager clicks and
`driver.quit()` calls are observable.
-/

/-- A CSV row: the list of string fields handed to `csv_writer.writerow`. -/
abbrev Row := List String

/-! ## bs4 script (`src/bs4-demo/main.py`) -/

/-- Transport-level failures that `requests.get` (bs4 script, line 16) can
raise.  A non-success HTTP status does not raise in `requests`; it surfaces
as a page without product articles. -/
inductive FetchErr
  | connectionError
  | timedOut
  deriving Repr, DecidableEq

/-- Exceptions the bs4 page loop can raise: a propagated `requests`
exception, the `IndexError` of `print(books[0])` on a page with no matching
articles (line 22), the `TypeError` of subscripting a failed `find` result
(lines 25 and 27), and the `AttributeError` of `.text` on a failed `find`
result (line 26). -/
inductive ScrapeErr
  | fetch (e : FetchErr)
  | indexError
  | typeError
  | attributeError
  deriving Repr, DecidableEq

/-- One `article.product_pod` element, abstracted to what the three field
selectors of lines 25–27 resolve on it: `none` models a selector that
matches zero elements (so `find` returned `None`). -/
structure Book where
  titleAttr : Option String
  priceText : Option String
  ratingClass : Option String
  deriving Repr, DecidableEq

/-- Field extraction for one book (bs4 script, lines 25–27): each of the
three lookups is subscripted/dereferenced immediately, so a selector that
matched zero elements raises and the record is not produced. -/
def extractBook (b : Book) : Except ScrapeErr Row :=
  match b.titleAttr with
  | none => .error .typeError
  | some title =>
    match b.priceText with
    | none => .error .attributeError
    | some price =>
      match b.ratingClass with
      | none => .error .typeError
      | some rating => .ok [title, price, rating]

/-- The header row written by the bs4 script (line 33). -/
def bs4Header : Row := ["Title", "Price", "Rating"]

/-- One record write of the bs4 script (lines 29–34): open `output.csv` in
append mode, write the header if `f.tell() == 0`, then write the row. -/
def bs4WriteRecord (file : List Row) (row : Row) : List Row :=
  (if file.isEmpty then [bs4Header] else file) ++ [row]

/-- The inner `for book in books` loop (lines 23–34): records are extracted
and appended one at a time; an extraction failure raises after the earlier
records of the page were already written. -/
def bs4WriteBooks (file : List Row) : List Book → List Row × Option ScrapeErr
  | [] => (file, none)
  | b :: bs =>
    match extractBook b with
    | .error e => (file, some e)
    | .ok row => bs4WriteBooks (bs4WriteRecord file row) bs

/-- One iteration of the page loop (lines 14–37) after the fetch: a raised
fetch propagates; `print(books[0])` raises `IndexError` when no article
matched; otherwise each book is extracted and written. -/
def bs4Page (file : List Row) (fetched : Except FetchErr (List Book)) :
    List Row × Option ScrapeErr :=
  match fetched with
  | .error e => (file, some (.fetch e))
  | .ok [] => (file, some .indexError)
  | .ok (b :: bs) => bs4WriteBooks file (b :: bs)

/-- Observable outcome of a bs4 run: which pages the loop started
(`attempted`), which it finished (`succeeded`), the final file contents, and
the exception that ended the run, if any.  The script itself has no summary
object; this records what its control flow does. -/
structure RunSummary where
  attempted : List Nat
  succeeded : List Nat
  file : List Row
  err : Option ScrapeErr
  deriving Repr, DecidableEq

/-- The page loop of the bs4 script (lines 14–37) over a list of page
indices, with `pages n` giving what `requests.get` + BeautifulSoup yield for
page `n`.  There is no handler anywhere in the script, so the first
exception ends the run with all later pages unvisited. -/
def bs4Loop (pages : Nat → Except FetchErr (List Book)) :
    List Nat → RunSummary → RunSummary
  | [], s => s
  | n :: rest, s =>
    let s1 : RunSummary :=
      { s with attempted := s.attempted ++ [n] }
    match bs4Page s1.file (pages n) with
    | (file, some e) => { s1 with file := file, err := some e }
    | (file, none) =>
      bs4Loop pages rest
        { s1 with file := file, succeeded := s1.succeeded ++ [n] }

/-- A whole bs4 run over pages `1..k` (the script fixes `k = 50`), starting
from an empty file: lines 8–10 delete any prior `output.csv`. -/
def bs4Run (pages : Nat → Except FetchErr (List Book)) (k : Nat) : RunSummary :=
  bs4Loop pages (List.range' 1 k) ⟨[], [], [], none⟩

/-- Models `if os.path.exists(p): os.remove(p)` on a file-system slot
(`none` = the file does not exist). -/
def removeIfExists (fs : Option (List Row)) : Option (List Row) :=
  match fs with
  | some _ => none
  | none => none

/-- A bs4 run started on an arbitrary prior state of `output.csv`: the
script first deletes the file (lines 8–10), then only ever appends. -/
def bs4ScriptFile (prior : Option (List Row))
    (pages : Nat → Except FetchErr (List Book)) (k : Nat) : RunSummary :=
  bs4Loop pages (List.range' 1 k)
    ⟨[], [], ((removeIfExists prior).getD []), none⟩

/-!  ## Event traces for the selenium scripts -/

/-- Exceptions in the selenium scripts: a failed `find_element`
(`NoSuchElementException`), a failed `driver.get`, and an expired
`WebDriverWait`. -/
inductive SelErr
  | noSuchElement
  | getError
  | timedOut
  deriving Repr, DecidableEq

/-- Observable events of a selenium script run: a header write (never
emitted by either selenium script), a data-row write, a click on the pager
"next" link, the `print` in the quotes script's `except` handler, and
`driver.quit()`. -/
inductive Ev
  | header (r : Row)
  | row (r : Row)
  | click
  | printErr (e : SelErr)
  | quitDriver
  deriving Repr, DecidableEq

/-- The rows present in the output file after a trace: every `row` or
`header` event appended one CSV line. -/
def fileRows (t : List Ev) : List Row :=
  t.filterMap fun e =>
    match e with
    | .header r => some r
    | .row r => some r
    | _ => none

/-- Number of `driver.quit()` calls in a trace. -/
def quitCount (t : List Ev) : Nat :=
  t.countP fun e =>
    match e with
    | .quitDriver => true
    | _ => false

/-- Number of pager-"next" clicks in a trace. -/
def clickCount (t : List Ev) : Nat :=
  t.countP fun e =>
    match e with
    | .click => true
    | _ => false

/-- Number of header writes in a trace. -/
def headerCount (t : List Ev) : Nat :=
  t.countP fun e =>
    match e with
    | .header _ => true
    | _ => false

/-- Models `try/except Exception/finally` (quotes script, lines 20–54): the body
runs; if it raised, the handler runs; the final block always runs; nothing
propagates out. -/
def tryExceptFinally (body : List Ev × Option SelErr)
    (handler : SelErr → List Ev) (fin : List Ev) : List Ev × Option SelErr :=
  match body with
  | (evs, none) => (evs ++ fin, none)
  | (evs, some e) => (evs ++ handler e ++ fin, none)

/-- Models `try/finally` with no `except` (bluesky script, lines 22–58): the final
block always runs, and a raised exception still propagates afterwards. -/
def tryThenFinally (body : List Ev × Option SelErr) (fin : List Ev) :
    List Ev × Option SelErr :=
  (body.1 ++ fin, body.2)

/-! ## quotes script (`src/selenium-demo/main.py`) -/

/-- One `div.quote` element, abstracted to what the two `find_element`
calls of lines 31–32 resolve on it (`none` = `NoSuchElementException`). -/
structure QuoteElem where
  textElem : Option String
  authorElem : Option String
  deriving Repr, DecidableEq

/-- Field extraction for one quote (lines 31–32): `text` is looked up
first, then `author`; a failed lookup raises, and the row written is
`[author, text]` (line 36). -/
def extractQuote (q : QuoteElem) : Except SelErr Row :=
  match q.textElem with
  | none => .error .noSuchElement
  | some text =>
    match q.authorElem with
    | none => .error .noSuchElement
    | some author => .ok [author, text]

/-- The inner `for i, quote in enumerate(quotes, 1)` loop (lines 30–36):
each successfully extracted quote is appended to `output.csv` (no header is
ever written by this script); a failed extraction raises after the earlier
rows of the page were written. -/
def quotesWriteAll : List QuoteElem → List Ev × Option SelErr
  | [] => ([], none)
  | q :: qs =>
    match extractQuote q with
    | .error e => ([], some e)
    | .ok r =>
      let rest := quotesWriteAll qs
      (Ev.row r :: rest.1, rest.2)

/-- Environment of a quotes run: whether `driver.get` succeeds, the quotes
visible during iteration `p` of the loop, and whether the
`pager → next → a` lookup-and-click of lines 38–41 succeeds there. -/
structure QEnv where
  getOk : Bool
  quotesOn : Nat → List QuoteElem
  clickOk : Nat → Bool

/-- Result of the quotes page loop: its event trace, the iterations whose
scrape completed, and the exception that ended it, if any. -/
structure QOut where
  trace : List Ev
  scraped : List Nat
  err : Option SelErr
  deriving Repr, DecidableEq

/-- The `for page in range(1, n + 1)` loop of the quotes script
(lines 26–48): scrape every quote of the current page, then click the
pager "next" link — also after the last page, since the click (lines 38–41)
precedes the `break` check (lines 44–46).  Any exception ends the loop. -/
def quotesLoop (env : QEnv) : List Nat → QOut
  | [] => ⟨[], [], none⟩
  | p :: rest =>
    let page := quotesWriteAll (env.quotesOn p)
    match page.2 with
    | some e => ⟨page.1, [], some e⟩
    | none =>
      if env.clickOk p then
        let o := quotesLoop env rest
        ⟨page.1 ++ Ev.click :: o.trace, p :: o.scraped, o.err⟩
      else ⟨page.1, [p], some .noSuchElement⟩

/-- The `try` body of the quotes script (lines 20–48): `driver.get`, then
the page loop over pages 1..3 (`n = 3`, line 25). -/
def quotesTryBody (env : QEnv) : QOut :=
  if env.getOk then quotesLoop env (List.range' 1 3)
  else ⟨[], [], some .getError⟩

/-- The whole quotes script (lines 20–54): the `try` body under
`except Exception as e: print(...)` and `finally: driver.quit()`. -/
def quotesScript (env : QEnv) : List Ev × Option SelErr :=
  let body := quotesTryBody env
  tryExceptFinally (body.trace, body.err) (fun e => [Ev.printErr e]) [Ev.quitDriver]

/-- State of `output.csv` after a quotes run started on an arbitrary prior
file state: lines 16–18 delete the file, and all writes append. -/
def quotesFileAfter (prior : Option (List Row)) (env : QEnv) : List Row :=
  ((removeIfExists prior).getD []) ++ fileRows (quotesScript env).1

/-! ## bluesky script (`src/selenium-demo/bluesky.py`) -/

/-- One `div[data-testid='postText']` element, abstracted to its `.text`
and to what the name and time sub-selectors (lines 36–49) resolve from it
(`none` = the `find_element` raised). -/
structure PostElem where
  text : String
  nameElem : Option String
  timeElem : Option String
  deriving Repr, DecidableEq

/-- Field extraction for one post (lines 34–49): the name and time lookups
are each wrapped in `try/except` with fallback `"Unknown"`, and the row
written is `[name, post_time, text]` (line 53). -/
def extractPost (post : PostElem) : Row :=
  let name :=
    match post.nameElem with
    | some n => n
    | none => "Unknown"
  let post_time :=
    match post.timeElem with
    | some t => t
    | none => "Unknown"
  [name, post_time, post.text]

/-- Environment of a bluesky run: whether `driver.get` succeeds, whether
the 20-second `WebDriverWait` finds a post in time, and the posts found. -/
structure BEnv where
  getOk : Bool
  waitOk : Bool
  posts : List PostElem

/-- The `try` body of the bluesky script (lines 22–55): `driver.get`, the
readiness wait, then one appended row per matched post. -/
def blueskyTryBody (env : BEnv) : List Ev × Option SelErr :=
  if env.getOk then
    if env.waitOk then
      (env.posts.map fun p => Ev.row (extractPost p), none)
    else ([], some .timedOut)
  else ([], some .getError)

/-- The whole bluesky script (lines 22–58): the `try` body under
`finally: driver.quit()`, with no `except` handler. -/
def blueskyScript (env : BEnv) : List Ev × Option SelErr :=
  tryThenFinally (blueskyTryBody env) [Ev.quitDriver]

/-- State of `bluesky_output.csv` after a run started on an arbitrary prior
file state: lines 18–20 delete the file, and all writes append. -/
def blueskyFileAfter (prior : Option (List Row)) (env : BEnv) : List Row :=
  ((removeIfExists prior).getD []) ++ fileRows (blueskyScript env).1

/-! ## Call-site inventory for timeouts -/

/-- A blocking network/browser call site, with the timeout the caller
passes at that site (`none` = no timeout argument in the source). -/
structure NetworkCall where
  site : String
  timeoutSeconds : Option Nat
  deriving Repr, DecidableEq

/-- The call `requests.get(url)` — bs4 script, line 16: no `timeout` argument. -/
def bs4FetchCall : NetworkCall :=
  { site := "bs4-demo/main.py:16 requests.get", timeoutSeconds := none }

/-- The call `driver.get(...)` on quotes.toscrape.com — quotes script, line 22:
no caller-specified timeout. -/
def quotesGetCall : NetworkCall :=
  { site := "selenium-demo/main.py:22 driver.get", timeoutSeconds := none }

/-- The call `driver.get(...)` on bsky.app — bluesky script, line 24: no
caller-specified timeout. -/
def blueskyGetCall : NetworkCall :=
  { site := "selenium-demo/bluesky.py:24 driver.get", timeoutSeconds := none }

/-- The call `WebDriverWait(driver, 20).until(...)` — bluesky script, line 25: the
caller passes a 20-second timeout. -/
def blueskyWaitCall : NetworkCall :=
  { site := "selenium-demo/bluesky.py:25 WebDriverWait", timeoutSeconds := some 20 }

/-- Every blocking network/browser call site in the three scripts. -/
def scriptNetworkCalls : List NetworkCall :=
  [bs4FetchCall, quotesGetCall, blueskyGetCall, blueskyWaitCall]

/-! ## Derived predicates and concrete inputs -/

/-- The rows produced, in order, by the successfully extracted prefix of a
book list (the rows the inner loop has appended when it stops). -/
def booksRows : List Book → List Row
  | [] => []
  | b :: bs =>
    match extractBook b with
    | .error _ => []
    | .ok r => r :: booksRows bs

/-- The exception one bs4 page iteration raises on a given fetch outcome
(the exception does not depend on the file contents). -/
def bs4PageErr (fetched : Except FetchErr (List Book)) : Option ScrapeErr :=
  (bs4Page [] fetched).2

/-- The rows one bs4 page iteration appends when it completes. -/
def bs4PageRows (fetched : Except FetchErr (List Book)) : List Row :=
  match fetched with
  | .error _ => []
  | .ok bs => booksRows bs

/-- A page on which the bs4 iteration completes: the fetch returned at
least one article and every field extraction succeeds. -/
def bs4PageAllOk (fetched : Except FetchErr (List Book)) : Prop :=
  ∃ b bs, fetched = .ok (b :: bs) ∧ ∀ x ∈ b :: bs, ∃ r, extractBook x = .ok r

/-- The record rows the bs4 page loop appends over a page list: each page
contributes the rows of its successfully extracted prefix, and the
iteration stops at the first page that raises (the rows that page wrote
before raising are kept — appends are never rolled back). -/
def bs4RunRows (pages : Nat → Except FetchErr (List Book)) : List Nat → List Row
  | [] => []
  | n :: rest =>
    match bs4PageErr (pages n) with
    | some _ => bs4PageRows (pages n)
    | none => bs4PageRows (pages n) ++ bs4RunRows pages rest

/-- A concrete book on which all three selectors resolve. -/
def exBook : Book := ⟨some "T", some "P", some "R"⟩

/-- A concrete static site where every page holds one good book. -/
def pagesAllOk : Nat → Except FetchErr (List Book) :=
  fun _ => .ok [exBook]

/-- A concrete static site where fetching page 2 raises and every other
page holds one good book. -/
def pagesFail2 : Nat → Except FetchErr (List Book) :=
  fun n => if n = 2 then .error .connectionError else .ok [exBook]

/-- A concrete static site where every fetch succeeds but no article
matches on any page. -/
def pagesEmptyOk : Nat → Except FetchErr (List Book) :=
  fun _ => .ok []

/-- A concrete quotes environment where every page holds one good quote
and every pager click lands. -/
def qEnvOk : QEnv := ⟨true, fun _ => [⟨some "t", some "a"⟩], fun _ => true⟩

/-- A concrete quotes environment where `driver.get` raises. -/
def qEnvGetFail : QEnv := ⟨false, fun _ => [], fun _ => true⟩

/-- A concrete quotes environment where the text lookup raises on the
single quote of page 2. -/
def qEnvFail2 : QEnv :=
  ⟨true, fun p => if p = 2 then [⟨none, some "a"⟩] else [⟨some "t", some "a"⟩],
   fun _ => true⟩

/-- A concrete bluesky environment with one post whose name lookup fails
and whose time lookup resolves. -/
def benvOk : BEnv := ⟨true, true, [⟨"hi", none, some "now"⟩]⟩

/-! ## Helper lemmas -/

lemma extractPost_eq (p : PostElem) :
    extractPost p =
      [p.nameElem.getD "Unknown", p.timeElem.getD "Unknown", p.text] := by
  rcases p with ⟨t, n, tm⟩
  cases n <;> cases tm <;> rfl

lemma fileRows_append (t u : List Ev) :
    fileRows (t ++ u) = fileRows t ++ fileRows u := by
  simp [fileRows]

lemma quitCount_append (t u : List Ev) :
    quitCount (t ++ u) = quitCount t + quitCount u := by
  simp [quitCount]

lemma clickCount_append (t u : List Ev) :
    clickCount (t ++ u) = clickCount t + clickCount u := by
  simp [clickCount]

lemma headerCount_append (t u : List Ev) :
    headerCount (t ++ u) = headerCount t + headerCount u := by
  simp [headerCount]

lemma quotesWriteAll_events :
    ∀ qs : List QuoteElem, ∀ e ∈ (quotesWriteAll qs).1, ∃ r, e = Ev.row r := by
  intro qs
  induction qs with
  | nil => intro e he; simp [quotesWriteAll] at he
  | cons q qs ih =>
    intro e he
    unfold quotesWriteAll at he
    cases hq : extractQuote q with
    | error err => rw [hq] at he; simp at he
    | ok r =>
      rw [hq] at he
      simp at he
      rcases he with h | h
      · exact ⟨r, h⟩
      · exact ih e h

lemma quotesLoop_events (env : QEnv) :
    ∀ ps : List Nat, ∀ e ∈ (quotesLoop env ps).trace,
      (∃ r, e = Ev.row r) ∨ e = Ev.click := by
  intro ps
  induction ps with
  | nil => intro e he; simp [quotesLoop] at he
  | cons p rest ih =>
    intro e he
    simp only [quotesLoop] at he
    cases hq : (quotesWriteAll (env.quotesOn p)).2 with
    | some err =>
      rw [hq] at he
      simp at he
      exact Or.inl (quotesWriteAll_events _ e he)
    | none =>
      rw [hq] at he
      cases hc : env.clickOk p with
      | true =>
        rw [hc] at he
        simp at he
        rcases he with h | h | h
        · exact Or.inl (quotesWriteAll_events _ e h)
        · exact Or.inr h
        · exact ih e h
      | false =>
        rw [hc] at he
        simp at he
        exact Or.inl (quotesWriteAll_events _ e he)

lemma quitCount_quotesWriteAll (qs : List QuoteElem) :
    quitCount (quotesWriteAll qs).1 = 0 := by
  rw [quitCount, List.countP_eq_zero]
  intro e he
  obtain ⟨r, rfl⟩ := quotesWriteAll_events qs e he
  simp

lemma clickCount_quotesWriteAll (qs : List QuoteElem) :
    clickCount (quotesWriteAll qs).1 = 0 := by
  rw [clickCount, List.countP_eq_zero]
  intro e he
  obtain ⟨r, rfl⟩ := quotesWriteAll_events qs e he
  simp

lemma quitCount_quotesLoop (env : QEnv) (ps : List Nat) :
    quitCount (quotesLoop env ps).trace = 0 := by
  rw [quitCount, List.countP_eq_zero]
  intro e he
  rcases quotesLoop_events env ps e he with ⟨r, rfl⟩ | rfl <;> simp

lemma headerCount_quotesLoop (env : QEnv) (ps : List Nat) :
    headerCount (quotesLoop env ps).trace = 0 := by
  rw [headerCount, List.countP_eq_zero]
  intro e he
  rcases quotesLoop_events env ps e he with ⟨r, rfl⟩ | rfl <;> simp

lemma quitCount_quotesTryBody (env : QEnv) :
    quitCount (quotesTryBody env).trace = 0 := by
  unfold quotesTryBody
  cases h : env.getOk with
  | true => rw [if_pos rfl]; exact quitCount_quotesLoop env _
  | false => rw [if_neg (by simp)]; simp [quitCount]

lemma headerCount_quotesTryBody (env : QEnv) :
    headerCount (quotesTryBody env).trace = 0 := by
  unfold quotesTryBody
  cases h : env.getOk with
  | true => rw [if_pos rfl]; exact headerCount_quotesLoop env _
  | false => rw [if_neg (by simp)]; simp [headerCount]

lemma quotesScript_eq (env : QEnv) :
    quotesScript env =
      ((quotesTryBody env).trace ++
        (match (quotesTryBody env).err with
         | some e => [Ev.printErr e]
         | none => []) ++ [Ev.quitDriver], none) := by
  unfold quotesScript tryExceptFinally
  cases h : (quotesTryBody env).err <;> simp [h]

lemma bs4WriteBooks_snd :
    ∀ (bs : List Book) (file file' : List Row),
      (bs4WriteBooks file bs).2 = (bs4WriteBooks file' bs).2 := by
  intro bs
  induction bs with
  | nil => intro file file'; rfl
  | cons b bs ih =>
    intro file file'
    unfold bs4WriteBooks
    cases h : extractBook b with
    | error e => rfl
    | ok r => exact ih _ _

lemma bs4Page_snd (file : List Row) (fetched : Except FetchErr (List Book)) :
    (bs4Page file fetched).2 = bs4PageErr fetched := by
  unfold bs4PageErr bs4Page
  cases fetched with
  | error e => rfl
  | ok bs =>
    cases bs with
    | nil => rfl
    | cons b bs => exact bs4WriteBooks_snd (b :: bs) file []

lemma bs4WriteBooks_allOk :
    ∀ (bs : List Book) (f : Row) (fs : List Row),
      (∀ x ∈ bs, ∃ r, extractBook x = .ok r) →
      bs4WriteBooks (f :: fs) bs = ((f :: fs) ++ booksRows bs, none) := by
  intro bs
  induction bs with
  | nil => intro f fs _; simp [bs4WriteBooks, booksRows]
  | cons b bs ih =>
    intro f fs h
    obtain ⟨r, hr⟩ := h b (by simp)
    have hrec : bs4WriteRecord (f :: fs) r = f :: (fs ++ [r]) := by
      simp [bs4WriteRecord]
    simp only [bs4WriteBooks, hr, hrec]
    rw [ih f (fs ++ [r]) (fun x hx => h x (by simp [hx]))]
    simp [booksRows, hr]

lemma bs4WriteBooks_nil_allOk (b : Book) (bs : List Book)
    (h : ∀ x ∈ b :: bs, ∃ r, extractBook x = .ok r) :
    bs4WriteBooks [] (b :: bs) = (bs4Header :: booksRows (b :: bs), none) := by
  obtain ⟨r, hr⟩ := h b (by simp)
  have hrec : bs4WriteRecord [] r = bs4Header :: [r] := rfl
  simp only [bs4WriteBooks, hr, hrec]
  rw [bs4WriteBooks_allOk bs bs4Header [r] (fun x hx => h x (by simp [hx]))]
  simp [booksRows, hr]

lemma bs4Page_allOk (file : List Row) (fetched : Except FetchErr (List Book))
    (h : bs4PageAllOk fetched) :
    (bs4Page file fetched).2 = none := by
  obtain ⟨b, bs, rfl, hall⟩ := h
  cases file with
  | nil =>
    show (bs4WriteBooks [] (b :: bs)).2 = none
    rw [bs4WriteBooks_nil_allOk b bs hall]
  | cons f fs =>
    show (bs4WriteBooks (f :: fs) (b :: bs)).2 = none
    rw [bs4WriteBooks_allOk (b :: bs) f fs hall]

lemma bs4Loop_cons_ok (pages : Nat → Except FetchErr (List Book))
    (n : Nat) (rest : List Nat) (s : RunSummary)
    (h : bs4PageAllOk (pages n)) :
    bs4Loop pages (n :: rest) s =
      bs4Loop pages rest
        { attempted := s.attempted ++ [n], succeeded := s.succeeded ++ [n],
          file := (bs4Page s.file (pages n)).1, err := s.err } := by
  have h2 : (bs4Page s.file (pages n)).2 = none := bs4Page_allOk s.file _ h
  simp only [bs4Loop]
  cases hp : bs4Page s.file (pages n) with
  | mk file e =>
    rw [hp] at h2
    subst h2
    rfl

lemma bs4Loop_cons_fail (pages : Nat → Except FetchErr (List Book))
    (n : Nat) (rest : List Nat) (s : RunSummary) (e : ScrapeErr)
    (h : bs4PageErr (pages n) = some e) :
    bs4Loop pages (n :: rest) s =
      { attempted := s.attempted ++ [n], succeeded := s.succeeded,
        file := (bs4Page s.file (pages n)).1, err := some e } := by
  have h2 : (bs4Page s.file (pages n)).2 = some e := by rw [bs4Page_snd]; exact h
  simp only [bs4Loop]
  cases hp : bs4Page s.file (pages n) with
  | mk file err =>
    rw [hp] at h2
    subst h2
    rfl

lemma bs4Loop_allOk (pages : Nat → Except FetchErr (List Book)) :
    ∀ (ps : List Nat) (s : RunSummary),
      (∀ n ∈ ps, bs4PageAllOk (pages n)) →
      (bs4Loop pages ps s).attempted = s.attempted ++ ps ∧
      (bs4Loop pages ps s).succeeded = s.succeeded ++ ps ∧
      (bs4Loop pages ps s).err = s.err := by
  intro ps
  induction ps with
  | nil => intro s _; simp [bs4Loop]
  | cons n rest ih =>
    intro s h
    rw [bs4Loop_cons_ok pages n rest s (h n (by simp))]
    obtain ⟨h1, h2, h3⟩ := ih _ (fun m hm => h m (by simp [hm]))
    exact ⟨by simp [h1], by simp [h2], h3⟩

lemma bs4Loop_allOk_file (pages : Nat → Except FetchErr (List Book)) :
    ∀ (ps : List Nat) (s : RunSummary),
      s.file ≠ [] →
      (∀ n ∈ ps, bs4PageAllOk (pages n)) →
      (bs4Loop pages ps s).file =
        s.file ++ ps.flatMap (fun n => bs4PageRows (pages n)) := by
  intro ps
  induction ps with
  | nil => intro s _ _; simp [bs4Loop]
  | cons n rest ih =>
    intro s hfile h
    obtain ⟨b, bs, hfetch, hall⟩ := h n (by simp)
    have hpage : bs4Page s.file (pages n) = (s.file ++ booksRows (b :: bs), none) := by
      rw [hfetch]
      cases hf : s.file with
      | nil => exact absurd hf hfile
      | cons f fs =>
        show bs4WriteBooks (f :: fs) (b :: bs) = ((f :: fs) ++ booksRows (b :: bs), none)
        exact bs4WriteBooks_allOk (b :: bs) f fs hall
    rw [bs4Loop_cons_ok pages n rest s ⟨b, bs, hfetch, hall⟩]
    rw [ih _ (by rw [show ({ attempted := s.attempted ++ [n], succeeded := s.succeeded ++ [n], file := (bs4Page s.file (pages n)).1, err := s.err } : RunSummary).file = (bs4Page s.file (pages n)).1 from rfl, hpage]; simp [List.append_eq_nil, hfile]) (fun m hm => h m (by simp [hm]))]
    rw [hfetch] at hpage
    simp [hpage, bs4PageRows, hfetch]

lemma bs4Loop_append (pages : Nat → Except FetchErr (List Book)) :
    ∀ (ps1 ps2 : List Nat) (s : RunSummary),
      (∀ n ∈ ps1, bs4PageAllOk (pages n)) →
      bs4Loop pages (ps1 ++ ps2) s = bs4Loop pages ps2 (bs4Loop pages ps1 s) := by
  intro ps1
  induction ps1 with
  | nil => intro ps2 s _; rfl
  | cons n rest ih =>
    intro ps2 s h
    rw [List.cons_append, bs4Loop_cons_ok pages n (rest ++ ps2) s (h n (by simp)),
      bs4Loop_cons_ok pages n rest s (h n (by simp)),
      ih ps2 _ (fun m hm => h m (by simp [hm]))]

lemma flatMapCongr {α β : Type} (f g : α → List β) :
    ∀ ps : List α, (∀ n ∈ ps, f n = g n) → ps.flatMap f = ps.flatMap g := by
  intro ps
  induction ps with
  | nil => intro _; rfl
  | cons n rest ih =>
    intro h
    simp only [List.flatMap_cons, h n (by simp), ih (fun m hm => h m (by simp [hm]))]

lemma quotesLoop_cons_ok (env : QEnv) (p : Nat) (rest : List Nat)
    (hok : (quotesWriteAll (env.quotesOn p)).2 = none)
    (hclick : env.clickOk p = true) :
    quotesLoop env (p :: rest) =
      ⟨(quotesWriteAll (env.quotesOn p)).1 ++ Ev.click :: (quotesLoop env rest).trace,
       p :: (quotesLoop env rest).scraped, (quotesLoop env rest).err⟩ := by
  simp only [quotesLoop]
  rw [hok, hclick]
  rfl

lemma quotesLoop_cons_fail (env : QEnv) (p : Nat) (rest : List Nat) (e : SelErr)
    (h : (quotesWriteAll (env.quotesOn p)).2 = some e) :
    quotesLoop env (p :: rest) = ⟨(quotesWriteAll (env.quotesOn p)).1, [], some e⟩ := by
  simp only [quotesLoop]
  rw [h]

lemma quotesLoop_allOk (env : QEnv) :
    ∀ ps : List Nat,
      (∀ p ∈ ps, (quotesWriteAll (env.quotesOn p)).2 = none ∧ env.clickOk p = true) →
      quotesLoop env ps =
        ⟨ps.flatMap (fun p => (quotesWriteAll (env.quotesOn p)).1 ++ [Ev.click]),
         ps, none⟩ := by
  intro ps
  induction ps with
  | nil => intro _; rfl
  | cons p rest ih =>
    intro h
    rw [quotesLoop_cons_ok env p rest (h p (by simp)).1 (h p (by simp)).2,
      ih (fun m hm => h m (by simp [hm]))]
    simp

lemma quotesLoop_append_ok (env : QEnv) :
    ∀ ps1 ps2 : List Nat,
      (∀ p ∈ ps1, (quotesWriteAll (env.quotesOn p)).2 = none ∧ env.clickOk p = true) →
      quotesLoop env (ps1 ++ ps2) =
        ⟨ps1.flatMap (fun p => (quotesWriteAll (env.quotesOn p)).1 ++ [Ev.click]) ++
           (quotesLoop env ps2).trace,
         ps1 ++ (quotesLoop env ps2).scraped, (quotesLoop env ps2).err⟩ := by
  intro ps1
  induction ps1 with
  | nil => intro ps2 _; simp
  | cons p rest ih =>
    intro ps2 h
    rw [List.cons_append,
      quotesLoop_cons_ok env p (rest ++ ps2) (h p (by simp)).1 (h p (by simp)).2,
      ih ps2 (fun m hm => h m (by simp [hm]))]
    simp

lemma clickCount_flat (env : QEnv) :
    ∀ ps : List Nat,
      clickCount (ps.flatMap
        (fun p => (quotesWriteAll (env.quotesOn p)).1 ++ [Ev.click])) = ps.length := by
  intro ps
  induction ps with
  | nil => rfl
  | cons p rest ih =>
    rw [List.flatMap_cons, clickCount_append, clickCount_append,
      clickCount_quotesWriteAll, ih]
    rw [show clickCount [Ev.click] = 1 from rfl]
    simp [Nat.add_comm]

lemma quitCount_blueskyTryBody (env : BEnv) :
    quitCount (blueskyTryBody env).1 = 0 := by
  unfold blueskyTryBody
  cases env.getOk with
  | false => rfl
  | true =>
    cases env.waitOk with
    | false => rfl
    | true =>
      simp [quitCount, List.countP_map, Function.comp]

lemma headerCount_blueskyTryBody (env : BEnv) :
    headerCount (blueskyTryBody env).1 = 0 := by
  unfold blueskyTryBody
  cases env.getOk with
  | false => rfl
  | true =>
    cases env.waitOk with
    | false => rfl
    | true =>
      simp [headerCount, List.countP_map, Function.comp]

lemma fileRows_blueskyRows (posts : List PostElem) :
    fileRows (posts.map fun p => Ev.row (extractPost p)) = posts.map extractPost := by
  induction posts with
  | nil => rfl
  | cons p ps ih =>
    simp only [List.map_cons]
    rw [show fileRows (Ev.row (extractPost p) ::
          List.map (fun q => Ev.row (extractPost q)) ps) =
        extractPost p :: fileRows (List.map (fun q => Ev.row (extractPost q)) ps)
      from rfl, ih]

/-! ## Claim theorems -/

/-- Claim C3, counterexample: a non-required field whose selector matches
zero elements does not yield the empty string.  In the bluesky script a post
whose name and time lookups both fail produces the row
["Unknown", "Unknown", text] — the fallback is the literal "Unknown", not
"" — and in the bs4 script a book whose title selector matches nothing
raises, so the record is not produced at all. -/
theorem c3_counterexample :
    extractPost ⟨"hi", none, none⟩ = ["Unknown", "Unknown", "hi"] ∧
    ("Unknown" : String) ≠ "" ∧
    extractBook ⟨none, some "p", some "r"⟩ = .error .typeError := by
  refine ⟨rfl, ?_, rfl⟩
  decide

/-- Claim C3, amended: in the bluesky script a name or time sub-selector
that resolves nothing yields the literal string "Unknown" for that field and
the record is still produced; in the bs4 and quotes scripts a field selector
matching zero elements raises, so the record is aborted rather than
completed with an empty string. -/
theorem c3_missing_field_behavior :
    (∀ t tm, extractPost ⟨t, none, some tm⟩ = ["Unknown", tm, t]) ∧
    (∀ t n, extractPost ⟨t, some n, none⟩ = [n, "Unknown", t]) ∧
    (∀ b : Book, b.titleAttr = none → extractBook b = .error .typeError) ∧
    (∀ t, extractQuote ⟨some t, none⟩ = .error .noSuchElement) := by
  refine ⟨fun t tm => rfl, fun t n => rfl, ?_, fun t => rfl⟩
  intro b hb
  rcases b with ⟨bt, bp, br⟩
  cases hb
  rfl

/-- Witness for C3 at concrete inputs. -/
theorem c3_witness :
    extractPost ⟨"hi", none, some "now"⟩ = ["Unknown", "now", "hi"] ∧
    extractBook ⟨none, some "p", some "r"⟩ = .error .typeError :=
  ⟨c3_missing_field_behavior.1 "hi" "now",
   c3_missing_field_behavior.2.2.1 ⟨none, some "p", some "r"⟩ rfl⟩

/-- Claim C5, counterexample: not every network/browser call in the scripts
carries a caller-specified bounded timeout — the bs4 script's
`requests.get` call is one of the run's network calls and passes no timeout
at all (and can therefore block indefinitely), refuting the universal
claim at this concrete call site. -/
theorem c5_counterexample :
    bs4FetchCall ∈ scriptNetworkCalls ∧
    bs4FetchCall.timeoutSeconds.isSome = false ∧
    (∀ c ∈ scriptNetworkCalls, c.timeoutSeconds.isSome = true) = False := by
  refine ⟨by simp [scriptNetworkCalls], rfl, ?_⟩
  simp only [eq_iff_iff, iff_false]
  intro h
  exact absurd (h bs4FetchCall (by simp [scriptNetworkCalls])) (by decide)

/-- Claim C5, amended: the interactive readiness wait (bluesky script)
carries a caller-specified 20-second timeout, but the static page fetch of
the bs4 script specifies no timeout, so the universal claim fails. -/
theorem c5_timeout_inventory :
    blueskyWaitCall.timeoutSeconds = some 20 ∧
    bs4FetchCall.timeoutSeconds = none ∧
    bs4FetchCall ∈ scriptNetworkCalls ∧
    blueskyWaitCall ∈ scriptNetworkCalls :=
  ⟨rfl, rfl, by simp [scriptNetworkCalls], by simp [scriptNetworkCalls]⟩

/-- Claim C6 (confirmed): every script deletes the output file before its
page loop, so a run started on any prior file state produces exactly the
file a run from scratch produces: the final file holds only rows written by
the second run, never rows from two different runs. -/
theorem c6_rerun_truncates (prior : Option (List Row))
    (pages : Nat → Except FetchErr (List Book)) (k : Nat)
    (env : QEnv) (benv : BEnv) :
    bs4ScriptFile prior pages k = bs4Run pages k ∧
    quotesFileAfter prior env = fileRows (quotesScript env).1 ∧
    blueskyFileAfter prior benv = fileRows (blueskyScript benv).1 := by
  rcases prior with _ | l <;> exact ⟨rfl, rfl, rfl⟩

/-- Claim C7 (confirmed): in both selenium scripts `driver.quit()` sits in
the `finally` block and nowhere else, so on every exit path of the
modelled `try` body — normal completion or an exception raised during
opening, extraction, writing, or navigation — the driver is released
exactly once. -/
theorem c7_driver_quit_once (qenv : QEnv) (benv : BEnv) :
    quitCount (quotesScript qenv).1 = 1 ∧ quitCount (blueskyScript benv).1 = 1 := by
  constructor
  · rw [quotesScript_eq, quitCount_append, quitCount_append, quitCount_quotesTryBody]
    cases h : (quotesTryBody qenv).err <;> rfl
  · show quitCount ((blueskyTryBody benv).1 ++ [Ev.quitDriver]) = 1
    rw [quitCount_append, quitCount_blueskyTryBody]
    rfl

/-- Claim C9 (confirmed): in the bluesky script, a run whose navigation and
readiness wait succeed writes exactly one output row per matched post, each
row being the three fields [name, post_time, text] in that order, with
"Unknown" substituted for a name or time sub-selector that fails to
resolve. -/
theorem c9_bluesky_rows (posts : List PostElem) :
    fileRows (blueskyScript ⟨true, true, posts⟩).1 =
      posts.map (fun p =>
        [p.nameElem.getD "Unknown", p.timeElem.getD "Unknown", p.text]) ∧
    (fileRows (blueskyScript ⟨true, true, posts⟩).1).length = posts.length ∧
    ∀ r ∈ fileRows (blueskyScript ⟨true, true, posts⟩).1, r.length = 3 := by
  have hrows : fileRows (blueskyScript ⟨true, true, posts⟩).1 =
      posts.map extractPost := by
    show fileRows ((blueskyTryBody ⟨true, true, posts⟩).1 ++ [Ev.quitDriver]) =
      posts.map extractPost
    rw [fileRows_append]
    show fileRows (posts.map fun p => Ev.row (extractPost p)) ++ [] =
      posts.map extractPost
    rw [List.append_nil, fileRows_blueskyRows]
  refine ⟨?_, ?_, ?_⟩
  · rw [hrows]
    exact List.map_congr_left fun p _ => extractPost_eq p
  · rw [hrows, List.length_map]
  · intro r hr
    rw [hrows] at hr
    obtain ⟨p, _, rfl⟩ := List.mem_map.mp hr
    rw [extractPost_eq]
    rfl

/-- Witness for C9 at a concrete post list. -/
theorem c9_witness :
    fileRows (blueskyScript ⟨true, true, [⟨"hi", none, some "now"⟩]⟩).1 =
      [["Unknown", "now", "hi"]] :=
  ((c9_bluesky_rows [⟨"hi", none, some "now"⟩]).1).trans rfl

/-- Claim C10 (confirmed): in the quotes script no modelled exception
escapes the program — the single outer handler catches it and prints it,
`driver.quit()` still runs exactly once, and every row written before the
exception is still in the output file (appends are never rolled back). -/
theorem c10_quotes_no_propagation (env : QEnv) :
    (quotesScript env).2 = none ∧
    quitCount (quotesScript env).1 = 1 ∧
    fileRows (quotesScript env).1 = fileRows (quotesTryBody env).trace ∧
    (∀ e, (quotesTryBody env).err = some e →
      Ev.printErr e ∈ (quotesScript env).1) := by
  refine ⟨?_, ?_, ?_, ?_⟩
  · rw [quotesScript_eq]
  · rw [quotesScript_eq, quitCount_append, quitCount_append, quitCount_quotesTryBody]
    cases h : (quotesTryBody env).err <;> rfl
  · rw [quotesScript_eq, fileRows_append, fileRows_append]
    cases h : (quotesTryBody env).err <;> simp [fileRows]
  · intro e he
    rw [quotesScript_eq, he]
    simp

/-- Witness for C10 at a run whose `driver.get` raises. -/
theorem c10_witness :
    (quotesScript qEnvGetFail).2 = none ∧
    Ev.printErr .getError ∈ (quotesScript qEnvGetFail).1 :=
  ⟨(c10_quotes_no_propagation qEnvGetFail).1,
   (c10_quotes_no_propagation qEnvGetFail).2.2.2 .getError rfl⟩

/-- Claim C4, counterexample: in a fully successful quotes run all 3
configured pages are scraped, yet the pager "next" link is clicked 3 times,
not k - 1 = 2 times — the click (lines 38–41) runs after every page,
including the last one, before the `break` check (lines 44–46). -/
theorem c4_counterexample :
    (quotesTryBody qEnvOk).scraped.length = 3 ∧
    clickCount (quotesScript qEnvOk).1 = 3 ∧
    (3 : Nat) ≠ 3 - 1 := by
  refine ⟨rfl, by decide, by decide⟩

/-- Claim C4, amended: in the quotes script the pager click is the only
navigation and runs exactly once after each successfully scraped page —
including the last — so a fully successful run over pages 1..k performs
exactly k clicks (k = 3 in the script), one between each pair of
consecutive pages plus one after the final page. -/
theorem c4_one_click_per_page :
    (∀ (env : QEnv) (k : Nat),
      (∀ p, 1 ≤ p → p ≤ k →
        (quotesWriteAll (env.quotesOn p)).2 = none ∧ env.clickOk p = true) →
      (quotesLoop env (List.range' 1 k)).scraped = List.range' 1 k ∧
      (quotesLoop env (List.range' 1 k)).trace =
        (List.range' 1 k).flatMap
          (fun p => (quotesWriteAll (env.quotesOn p)).1 ++ [Ev.click]) ∧
      clickCount (quotesLoop env (List.range' 1 k)).trace = k ∧
      (quotesLoop env (List.range' 1 k)).err = none) ∧
    (∀ env : QEnv, env.getOk = true →
      (∀ p, 1 ≤ p → p ≤ 3 →
        (quotesWriteAll (env.quotesOn p)).2 = none ∧ env.clickOk p = true) →
      (quotesTryBody env).scraped = [1, 2, 3] ∧
      clickCount (quotesScript env).1 = 3) := by
  constructor
  · intro env k h
    have h' : ∀ p ∈ List.range' 1 k,
        (quotesWriteAll (env.quotesOn p)).2 = none ∧ env.clickOk p = true := by
      intro p hp
      rw [List.mem_range'_1] at hp
      exact h p hp.1 (by omega)
    rw [quotesLoop_allOk env (List.range' 1 k) h']
    exact ⟨rfl, rfl, by rw [clickCount_flat, List.length_range'], rfl⟩
  · intro env hget h
    have hbody : quotesTryBody env = quotesLoop env (List.range' 1 3) := by
      unfold quotesTryBody
      rw [if_pos hget]
    have h' : ∀ p ∈ List.range' 1 3,
        (quotesWriteAll (env.quotesOn p)).2 = none ∧ env.clickOk p = true := by
      intro p hp
      rw [List.mem_range'_1] at hp
      exact h p hp.1 (by omega)
    have hloop := quotesLoop_allOk env (List.range' 1 3) h'
    constructor
    · rw [hbody, hloop]
      rfl
    · rw [quotesScript_eq, clickCount_append, clickCount_append, hbody, hloop]
      rw [show (⟨(List.range' 1 3).flatMap
          (fun p => (quotesWriteAll (env.quotesOn p)).1 ++ [Ev.click]),
          List.range' 1 3, none⟩ : QOut).err = none from rfl]
      rw [show (⟨(List.range' 1 3).flatMap
          (fun p => (quotesWriteAll (env.quotesOn p)).1 ++ [Ev.click]),
          List.range' 1 3, none⟩ : QOut).trace = (List.range' 1 3).flatMap
          (fun p => (quotesWriteAll (env.quotesOn p)).1 ++ [Ev.click]) from rfl]
      rw [clickCount_flat, List.length_range']
      rfl

/-- Witness for C4 at a concrete fully successful run. -/
theorem c4_witness :
    (quotesTryBody qEnvOk).scraped = [1, 2, 3] ∧
    clickCount (quotesScript qEnvOk).1 = 3 :=
  c4_one_click_per_page.2 qEnvOk rfl (fun _ _ _ => ⟨rfl, rfl⟩)

/-- Claim C8, counterexample: a static run whose single page fetch succeeds
but returns a page with no matching articles (so there is no record whose
extraction could fail) does not succeed on that page: `print(books[0])`
raises `IndexError`, the run ends with an exception, and `pages_succeeded`
is 0, not k. -/
theorem c8_counterexample :
    (bs4Run pagesEmptyOk 1).attempted = [1] ∧
    (bs4Run pagesEmptyOk 1).succeeded = [] ∧
    (bs4Run pagesEmptyOk 1).err = some .indexError := by
  decide

/-- Claim C8, amended: for every k ≥ 1, a static run in which every page
fetch succeeds, every page yields at least one matching article, and every
record extraction succeeds processes exactly pages 1..k, each once and in
ascending order, with all k pages succeeding and no exception. -/
theorem c8_full_success_run (pages : Nat → Except FetchErr (List Book))
    (books : Nat → List Book) (k : Nat) (_hk : 1 ≤ k)
    (h : ∀ n, 1 ≤ n → n ≤ k →
      pages n = .ok (books n) ∧ books n ≠ [] ∧
      ∀ b ∈ books n, ∃ r, extractBook b = .ok r) :
    (bs4Run pages k).attempted = List.range' 1 k ∧
    (bs4Run pages k).succeeded = List.range' 1 k ∧
    (bs4Run pages k).succeeded.length = k ∧
    (bs4Run pages k).err = none := by
  have hall : ∀ n ∈ List.range' 1 k, bs4PageAllOk (pages n) := by
    intro n hn
    rw [List.mem_range'_1] at hn
    obtain ⟨hfetch, hne, hok⟩ := h n hn.1 (by omega)
    cases hb : books n with
    | nil => exact absurd hb hne
    | cons b bs =>
      exact ⟨b, bs, by rw [hfetch, hb], fun x hx => hok x (by rw [hb]; exact hx)⟩
  obtain ⟨h1, h2, h3⟩ := bs4Loop_allOk pages (List.range' 1 k) ⟨[], [], [], none⟩ hall
  refine ⟨?_, ?_, ?_, h3⟩
  · rw [bs4Run, h1]; rfl
  · rw [bs4Run, h2]; rfl
  · rw [bs4Run, h2]
    rw [show (([] : List Nat) ++ List.range' 1 k) = List.range' 1 k from rfl]
    exact List.length_range' 1 1 k

/-- Witness for C8 at a concrete two-page fully successful run. -/
theorem c8_witness :
    (bs4Run pagesAllOk 2).succeeded = List.range' 1 2 ∧
    (bs4Run pagesAllOk 2).err = none := by
  have h := c8_full_success_run pagesAllOk (fun _ => [exBook]) 2 (by decide)
    (fun n _ _ => ⟨rfl, by simp, fun b hb => ⟨["T", "P", "R"], by
      simp at hb; rw [hb]; rfl⟩⟩)
  exact ⟨h.2.1, h.2.2.2⟩

/-- Claim C2, counterexample: a quotes run with three successful pages
writes zero header rows — its output file holds only data rows — because
only the bs4 script ever writes a header. -/
theorem c2_counterexample :
    (quotesTryBody qEnvOk).scraped = [1, 2, 3] ∧
    headerCount (quotesScript qEnvOk).1 = 0 ∧
    fileRows (quotesScript qEnvOk).1 = [["a", "t"], ["a", "t"], ["a", "t"]] := by
  decide

lemma bs4WriteBooks_fst_cons :
    ∀ (bs : List Book) (f : Row) (fs : List Row),
      (bs4WriteBooks (f :: fs) bs).1 = (f :: fs) ++ booksRows bs := by
  intro bs
  induction bs with
  | nil => intro f fs; simp [bs4WriteBooks, booksRows]
  | cons b bs ih =>
    intro f fs
    cases hb : extractBook b with
    | error e =>
      simp only [bs4WriteBooks, hb, booksRows]
      simp
    | ok r =>
      have hrec : bs4WriteRecord (f :: fs) r = f :: (fs ++ [r]) := by
        simp [bs4WriteRecord]
      simp only [bs4WriteBooks, hb, hrec]
      rw [ih f (fs ++ [r])]
      simp [booksRows, hb]

lemma bs4WriteBooks_fst_nil (bs : List Book) :
    (bs4WriteBooks ([] : List Row) bs).1 =
      if booksRows bs = [] then [] else bs4Header :: booksRows bs := by
  cases bs with
  | nil => simp [bs4WriteBooks, booksRows]
  | cons b bs2 =>
    cases hb : extractBook b with
    | error e => simp [bs4WriteBooks, hb, booksRows]
    | ok r =>
      have hrec : bs4WriteRecord [] r = bs4Header :: [r] := rfl
      simp only [bs4WriteBooks, hb, hrec]
      rw [bs4WriteBooks_fst_cons bs2 bs4Header [r]]
      simp [booksRows, hb]

lemma bs4Page_fst_nil (fetched : Except FetchErr (List Book)) :
    (bs4Page ([] : List Row) fetched).1 =
      if bs4PageRows fetched = [] then []
      else bs4Header :: bs4PageRows fetched := by
  cases fetched with
  | error e => simp [bs4Page, bs4PageRows]
  | ok bs =>
    cases bs with
    | nil => simp [bs4Page, bs4PageRows, booksRows]
    | cons b bs2 =>
      show (bs4WriteBooks [] (b :: bs2)).1 = _
      rw [bs4WriteBooks_fst_nil]
      rfl

lemma bs4Page_fst_cons (f : Row) (fs : List Row)
    (fetched : Except FetchErr (List Book)) :
    (bs4Page (f :: fs) fetched).1 = (f :: fs) ++ bs4PageRows fetched := by
  cases fetched with
  | error e => simp [bs4Page, bs4PageRows]
  | ok bs =>
    cases bs with
    | nil => simp [bs4Page, bs4PageRows, booksRows]
    | cons b bs2 =>
      show (bs4WriteBooks (f :: fs) (b :: bs2)).1 = _
      rw [bs4WriteBooks_fst_cons]
      rfl

lemma bs4Loop_cons_noErr (pages : Nat → Except FetchErr (List Book))
    (n : Nat) (rest : List Nat) (s : RunSummary)
    (h : bs4PageErr (pages n) = none) :
    bs4Loop pages (n :: rest) s =
      bs4Loop pages rest
        { attempted := s.attempted ++ [n], succeeded := s.succeeded ++ [n],
          file := (bs4Page s.file (pages n)).1, err := s.err } := by
  have h2 : (bs4Page s.file (pages n)).2 = none := by rw [bs4Page_snd]; exact h
  simp only [bs4Loop]
  cases hp : bs4Page s.file (pages n) with
  | mk file e =>
    rw [hp] at h2
    subst h2
    rfl

lemma bs4Loop_file_cons (pages : Nat → Except FetchErr (List Book)) :
    ∀ (ps : List Nat) (s : RunSummary), s.file ≠ [] →
      (bs4Loop pages ps s).file = s.file ++ bs4RunRows pages ps := by
  intro ps
  induction ps with
  | nil => intro s _; simp [bs4Loop, bs4RunRows]
  | cons n rest ih =>
    intro s hs
    obtain ⟨f, fs, hf⟩ : ∃ f fs, s.file = f :: fs := by
      cases hf : s.file with
      | nil => exact absurd hf hs
      | cons f fs => exact ⟨f, fs, rfl⟩
    cases he : bs4PageErr (pages n) with
    | some e =>
      rw [bs4Loop_cons_fail pages n rest s e he]
      show (bs4Page s.file (pages n)).1 = s.file ++ bs4RunRows pages (n :: rest)
      rw [hf, bs4Page_fst_cons]
      rw [show bs4RunRows pages (n :: rest) = bs4PageRows (pages n) from by
        simp only [bs4RunRows, he]]
    | none =>
      rw [bs4Loop_cons_noErr pages n rest s he]
      rw [ih _ (by
        show (bs4Page s.file (pages n)).1 ≠ []
        rw [hf, bs4Page_fst_cons]
        simp)]
      show (bs4Page s.file (pages n)).1 ++ bs4RunRows pages rest =
        s.file ++ bs4RunRows pages (n :: rest)
      rw [hf, bs4Page_fst_cons]
      rw [show bs4RunRows pages (n :: rest) =
          bs4PageRows (pages n) ++ bs4RunRows pages rest from by
        simp only [bs4RunRows, he]]
      simp

lemma bs4Loop_file_nil (pages : Nat → Except FetchErr (List Book)) :
    ∀ (ps : List Nat) (s : RunSummary), s.file = [] →
      (bs4Loop pages ps s).file =
        if bs4RunRows pages ps = [] then []
        else bs4Header :: bs4RunRows pages ps := by
  intro ps
  induction ps with
  | nil => intro s hs; simp [bs4Loop, bs4RunRows, hs]
  | cons n rest ih =>
    intro s hs
    cases he : bs4PageErr (pages n) with
    | some e =>
      rw [bs4Loop_cons_fail pages n rest s e he]
      show (bs4Page s.file (pages n)).1 = _
      rw [hs, bs4Page_fst_nil]
      rw [show bs4RunRows pages (n :: rest) = bs4PageRows (pages n) from by
        simp only [bs4RunRows, he]]
    | none =>
      rw [bs4Loop_cons_noErr pages n rest s he]
      have hrr : bs4RunRows pages (n :: rest) =
          bs4PageRows (pages n) ++ bs4RunRows pages rest := by
        simp only [bs4RunRows, he]
      cases hpr : bs4PageRows (pages n) with
      | nil =>
        rw [ih _ (by
          show (bs4Page s.file (pages n)).1 = []
          rw [hs, bs4Page_fst_nil, hpr]
          simp)]
        rw [hrr, hpr]
        simp
      | cons q qs =>
        rw [bs4Loop_file_cons pages rest _ (by
          show (bs4Page s.file (pages n)).1 ≠ []
          rw [hs, bs4Page_fst_nil, hpr]
          simp)]
        show (bs4Page s.file (pages n)).1 ++ bs4RunRows pages rest = _
        rw [hs, bs4Page_fst_nil, hpr, hrr, hpr]
        simp

lemma bs4PageErr_none_rows (fetched : Except FetchErr (List Book))
    (h : bs4PageErr fetched = none) : bs4PageRows fetched ≠ [] := by
  cases fetched with
  | error e => simp [bs4PageErr, bs4Page] at h
  | ok bs =>
    cases bs with
    | nil => simp [bs4PageErr, bs4Page] at h
    | cons b bs2 =>
      cases hb : extractBook b with
      | error e =>
        have h2 : (bs4WriteBooks ([] : List Row) (b :: bs2)).2 = none := h
        simp [bs4WriteBooks, hb] at h2
      | ok r =>
        show booksRows (b :: bs2) ≠ []
        simp [booksRows, hb]

lemma bs4Loop_succ (pages : Nat → Except FetchErr (List Book)) :
    ∀ (ps : List Nat) (s : RunSummary),
      (bs4Loop pages ps s).succeeded ≠ s.succeeded →
      bs4RunRows pages ps ≠ [] := by
  intro ps
  induction ps with
  | nil => intro s h; exact absurd rfl h
  | cons n rest ih =>
    intro s h
    cases he : bs4PageErr (pages n) with
    | some e =>
      rw [bs4Loop_cons_fail pages n rest s e he] at h
      exact absurd rfl h
    | none =>
      rw [show bs4RunRows pages (n :: rest) =
          bs4PageRows (pages n) ++ bs4RunRows pages rest from by
        simp only [bs4RunRows, he]]
      intro hnil
      rw [List.append_eq_nil] at hnil
      exact bs4PageErr_none_rows (pages n) he hnil.1

/-- Claim C2, amended: in the bs4 script, for every run whatsoever the
output file is either empty (no record was ever written) or consists of
exactly one header row at the top followed by exactly the successfully
extracted record rows, in order; in particular every run with at least one
successful page — whatever happens on the other pages — has the header as
its single first row before all data rows.  The two selenium scripts never
write a header row at all. -/
theorem c2_header_once_bs4_only :
    (∀ (pages : Nat → Except FetchErr (List Book)) (k : Nat),
      (bs4Run pages k).succeeded ≠ [] →
      (bs4Run pages k).file =
        bs4Header :: bs4RunRows pages (List.range' 1 k)) ∧
    (∀ (pages : Nat → Except FetchErr (List Book)) (k : Nat),
      (bs4Run pages k).file = [] ∨
      (bs4Run pages k).file =
        bs4Header :: bs4RunRows pages (List.range' 1 k)) ∧
    (∀ env : QEnv, headerCount (quotesScript env).1 = 0) ∧
    (∀ benv : BEnv, headerCount (blueskyScript benv).1 = 0) := by
  have hfile : ∀ (pages : Nat → Except FetchErr (List Book)) (k : Nat),
      (bs4Run pages k).file =
        if bs4RunRows pages (List.range' 1 k) = [] then []
        else bs4Header :: bs4RunRows pages (List.range' 1 k) :=
    fun pages k => bs4Loop_file_nil pages (List.range' 1 k) ⟨[], [], [], none⟩ rfl
  refine ⟨?_, ?_, ?_, ?_⟩
  · intro pages k hsucc
    have hrr : bs4RunRows pages (List.range' 1 k) ≠ [] :=
      bs4Loop_succ pages (List.range' 1 k) ⟨[], [], [], none⟩ hsucc
    rw [hfile pages k, if_neg hrr]
  · intro pages k
    rw [hfile pages k]
    cases hrr : bs4RunRows pages (List.range' 1 k) with
    | nil => left; rw [if_pos rfl]
    | cons q qs => right; rw [if_neg (by simp)]
  · intro env
    rw [quotesScript_eq, headerCount_append, headerCount_append,
      headerCount_quotesTryBody]
    cases h : (quotesTryBody env).err <;> rfl
  · intro benv
    show headerCount ((blueskyTryBody benv).1 ++ [Ev.quitDriver]) = 0
    rw [headerCount_append, headerCount_blueskyTryBody]
    rfl

/-- Witness for C2 at a concrete one-page bs4 run and a quotes run. -/
theorem c2_witness :
    (bs4Run pagesAllOk 1).file = [bs4Header, ["T", "P", "R"]] ∧
    headerCount (quotesScript qEnvOk).1 = 0 := by
  have h := c2_header_once_bs4_only.1 pagesAllOk 1 (by decide)
  exact ⟨by rw [h]; rfl, c2_header_once_bs4_only.2.2.1 qEnvOk⟩

/-- Claim C1, counterexample: in a 3-page bs4 run whose page-2 fetch
raises, the exception propagates immediately — page 3 is never attempted,
no page is recorded as Failed anywhere (the run's "summary" is just the
propagated exception), and only page 1 succeeded. -/
theorem c1_counterexample :
    (bs4Run pagesFail2 3).attempted = [1, 2] ∧
    3 ∉ (bs4Run pagesFail2 3).attempted ∧
    (bs4Run pagesFail2 3).succeeded = [1] ∧
    (bs4Run pagesFail2 3).err = some (.fetch .connectionError) := by
  decide

/-- Claim C1, amended: a fetch or extraction failure on page p is fatal,
not page-isolated.  In the bs4 script the exception propagates: pages
p+1..k are never attempted and the run ends carrying the exception; in the
quotes script the page loop likewise stops at p (later pages are never
scraped) and the exception reaches the single outer handler.  No script
records a per-page Failed entry or continues to page p+1. -/
theorem c1_page_failure_aborts_run :
    (∀ (pages : Nat → Except FetchErr (List Book)) (k p : Nat) (e : ScrapeErr),
      1 ≤ p → p ≤ k →
      (∀ q, 1 ≤ q → q < p → bs4PageAllOk (pages q)) →
      bs4PageErr (pages p) = some e →
      (bs4Run pages k).attempted = List.range' 1 p ∧
      (bs4Run pages k).succeeded = List.range' 1 (p - 1) ∧
      (bs4Run pages k).err = some e) ∧
    (∀ (env : QEnv) (k p : Nat) (e : SelErr),
      1 ≤ p → p ≤ k →
      (∀ q, 1 ≤ q → q < p →
        (quotesWriteAll (env.quotesOn q)).2 = none ∧ env.clickOk q = true) →
      (quotesWriteAll (env.quotesOn p)).2 = some e →
      (quotesLoop env (List.range' 1 k)).scraped = List.range' 1 (p - 1) ∧
      (quotesLoop env (List.range' 1 k)).err = some e) := by
  constructor
  · intro pages k p e hp1 hpk hok hfail
    have hsplit : List.range' 1 (p - 1) ++ p :: List.range' (p + 1) (k - p) =
        List.range' 1 k := by
      have ha := List.range'_append 1 (p - 1) (k - p + 1) 1
      rw [show 1 + 1 * (p - 1) = p from by omega,
        show k - p + 1 + (p - 1) = k from by omega] at ha
      rw [← ha]
      congr 1
    have hpre : ∀ n ∈ List.range' 1 (p - 1), bs4PageAllOk (pages n) := by
      intro n hn
      rw [List.mem_range'_1] at hn
      exact hok n hn.1 (by omega)
    have happ := bs4Loop_append pages (List.range' 1 (p - 1))
      (p :: List.range' (p + 1) (k - p)) ⟨[], [], [], none⟩ hpre
    obtain ⟨ha1, ha2, ha3⟩ :=
      bs4Loop_allOk pages (List.range' 1 (p - 1)) ⟨[], [], [], none⟩ hpre
    have hfailstep := bs4Loop_cons_fail pages p (List.range' (p + 1) (k - p))
      (bs4Loop pages (List.range' 1 (p - 1)) ⟨[], [], [], none⟩) e hfail
    have hrun : bs4Run pages k =
        bs4Loop pages (p :: List.range' (p + 1) (k - p))
          (bs4Loop pages (List.range' 1 (p - 1)) ⟨[], [], [], none⟩) := by
      rw [bs4Run, ← hsplit, happ]
    rw [hrun, hfailstep]
    refine ⟨?_, ?_, rfl⟩
    · show (bs4Loop pages (List.range' 1 (p - 1))
          ⟨[], [], [], none⟩).attempted ++ [p] = List.range' 1 p
      rw [ha1]
      rw [show ([] : List Nat) ++ List.range' 1 (p - 1) = List.range' 1 (p - 1)
        from rfl]
      have hc := @List.range'_concat 1 1 (p - 1)
      rw [show 1 + 1 * (p - 1) = p from by omega] at hc
      rw [show (p - 1) + 1 = p from by omega] at hc
      rw [← hc]
    · show (bs4Loop pages (List.range' 1 (p - 1))
          ⟨[], [], [], none⟩).succeeded = List.range' 1 (p - 1)
      rw [ha2]
      rfl
  · intro env k p e hp1 hpk hok hfail
    have hsplit : List.range' 1 (p - 1) ++ p :: List.range' (p + 1) (k - p) =
        List.range' 1 k := by
      have ha := List.range'_append 1 (p - 1) (k - p + 1) 1
      rw [show 1 + 1 * (p - 1) = p from by omega,
        show k - p + 1 + (p - 1) = k from by omega] at ha
      rw [← ha]
      congr 1
    have hpre : ∀ q ∈ List.range' 1 (p - 1),
        (quotesWriteAll (env.quotesOn q)).2 = none ∧ env.clickOk q = true := by
      intro q hq
      rw [List.mem_range'_1] at hq
      exact hok q hq.1 (by omega)
    have happ := quotesLoop_append_ok env (List.range' 1 (p - 1))
      (p :: List.range' (p + 1) (k - p)) hpre
    have hfailstep := quotesLoop_cons_fail env p (List.range' (p + 1) (k - p))
      e hfail
    rw [← hsplit, happ, hfailstep]
    exact ⟨by simp, rfl⟩

/-- Witness for C1 at the concrete 3-page run whose page-2 fetch raises and
at a concrete quotes run whose page-2 extraction raises. -/
theorem c1_witness :
    ((bs4Run pagesFail2 3).attempted = List.range' 1 2 ∧
      (bs4Run pagesFail2 3).err = some (.fetch .connectionError)) ∧
    ((quotesLoop qEnvFail2 (List.range' 1 3)).scraped = List.range' 1 1 ∧
      (quotesLoop qEnvFail2 (List.range' 1 3)).err = some .noSuchElement) := by
  have h1 := c1_page_failure_aborts_run.1 pagesFail2 3 2 (.fetch .connectionError)
    (by decide) (by decide)
    (fun q hq1 hq2 => by
      have hq : q = 1 := by omega
      subst hq
      exact ⟨exBook, [], rfl,
        fun x hx => ⟨["T", "P", "R"], by simp at hx; rw [hx]; rfl⟩⟩)
    (by decide)
  have h2 := c1_page_failure_aborts_run.2 qEnvFail2 3 2 .noSuchElement
    (by decide) (by decide)
    (fun q hq1 hq2 => by
      have hq : q = 1 := by omega
      subst hq
      exact ⟨rfl, rfl⟩)
    rfl
  exact ⟨⟨h1.1, h1.2.2⟩, h2⟩
